import Mathlib

/-!
Verification of the Pi Lamp API (src/raspberrypi/app.py).

The program is a small HTTP service driving one GPIO pin:
  * `/lamp/on`    — `relay.on()`,  returns `{"status": "on"}`
  * `/lamp/off`   — `relay.off()`, returns `{"status": "off"}`
  * `/lamp/flash` — schedules a background task `_flash` that loops
                    `flashes` times doing on / sleep / off / sleep with
                    sleep argument `duration / (flashes * 2)`, and returns
                    `{"status": "flashing", "duration": D, "flashes": F}`
  * `/health`     — returns `{"ok": true}`

The embedding records, for each handler, the JSON response body, the HTTP
status code, the pin operations performed synchronously in the handler,
and the list of tasks submitted to the background mechanism.  A pin
operation trace is interpreted over the pin state (a `Bool`, `true` =
high) by `run`.  Python integer true-division is fallible (raises
`ZeroDivisionError` on a zero divisor), so the background task body is
an `Except`; the real-valued sleep interval is modelled exactly in `ℚ`.
-/

/-- A single observable pin-level operation performed by the program. -/
inductive PinOp where
  | setOn  : PinOp
  | setOff : PinOp
  | sleep  : ℚ → PinOp
deriving DecidableEq, Repr

/-- Effect of one pin operation on the pin state (`true` = high). -/
def runOp (pin : Bool) : PinOp → Bool
  | PinOp.setOn   => true
  | PinOp.setOff  => false
  | PinOp.sleep _ => pin

/-- Execute a trace of pin operations from an initial pin state. -/
def run (pin : Bool) (ops : List PinOp) : Bool :=
  ops.foldl runOp pin

/-- Primitive JSON values appearing in the handlers' response bodies. -/
inductive JsonPrim where
  | s : String → JsonPrim
  | i : Int → JsonPrim
  | b : Bool → JsonPrim
deriving DecidableEq, Repr

/-- A JSON object: an ordered list of key/value pairs, as Python dict
literals serialize. -/
abbrev JsonObj : Type := List (String × JsonPrim)

instance {ε α : Type} [DecidableEq ε] [DecidableEq α] :
    DecidableEq (Except ε α) := fun a b =>
  match a, b with
  | Except.ok a, Except.ok b =>
      if h : a = b then Decidable.isTrue (by rw [h])
      else Decidable.isFalse (by simp [h])
  | Except.error a, Except.error b =>
      if h : a = b then Decidable.isTrue (by rw [h])
      else Decidable.isFalse (by simp [h])
  | Except.ok _, Except.error _ => Decidable.isFalse (by simp)
  | Except.error _, Except.ok _ => Decidable.isFalse (by simp)

/-- Outcome of one request handler: response body, HTTP status code,
pin operations performed synchronously before the response is produced,
and background tasks submitted via the framework's task mechanism
(each fallible, returning the trace of operations it performs). -/
structure HandlerResult where
  response   : JsonObj
  statusCode : Nat
  trace      : List PinOp
  background : List (Except String (List PinOp))

/-- Python integer true-division `a / b`: raises `ZeroDivisionError`
when the divisor is zero, otherwise yields the exact quotient. -/
def pyDiv (a b : Int) : Except String ℚ :=
  if b = 0 then Except.error "ZeroDivisionError"
  else Except.ok ((a : ℚ) / (b : ℚ))

/-- The body of `_flash`'s `for _ in range(flashes)` loop, iterated a
given number of times: each iteration sets the pin high, sleeps for
`duration / (flashes * 2)`, sets it low and sleeps again; the division
is evaluated inside the loop body and a `ZeroDivisionError` aborts the
task. -/
def flashLoop (duration flashes : Int) : Nat → Except String (List PinOp)
  | 0 => Except.ok []
  | n + 1 => do
      let i1 ← pyDiv duration (flashes * 2)
      let i2 ← pyDiv duration (flashes * 2)
      let rest ← flashLoop duration flashes n
      pure ([PinOp.setOn, PinOp.sleep i1, PinOp.setOff, PinOp.sleep i2] ++ rest)

/-- The background task `_flash` closed over `duration` and `flashes`:
`range(flashes)` yields `flashes.toNat` iterations (empty for
non-positive `flashes`). -/
def flashTask (duration flashes : Int) : Except String (List PinOp) :=
  flashLoop duration flashes flashes.toNat

/-- Handler for `GET /lamp/on`: `relay.on()` then return
`{"status": "on"}`. -/
def lamp_on : HandlerResult :=
  { response := [("status", JsonPrim.s "on")]
  , statusCode := 200
  , trace := [PinOp.setOn]
  , background := [] }

/-- Handler for `GET /lamp/off`: `relay.off()` then return
`{"status": "off"}`. -/
def lamp_off : HandlerResult :=
  { response := [("status", JsonPrim.s "off")]
  , statusCode := 200
  , trace := [PinOp.setOff]
  , background := [] }

/-- Handler for `GET /lamp/flash`: submits `_flash` as a background task
and immediately returns the scheduled parameters; it performs no pin
operation itself. -/
def lamp_flash (duration flashes : Int) : HandlerResult :=
  { response := [("status", JsonPrim.s "flashing"),
                 ("duration", JsonPrim.i duration),
                 ("flashes", JsonPrim.i flashes)]
  , statusCode := 200
  , trace := []
  , background := [flashTask duration flashes] }

/-- Handler for `GET /health`: returns `{"ok": true}` and touches
nothing. -/
def health : HandlerResult :=
  { response := [("ok", JsonPrim.b true)]
  , statusCode := 200
  , trace := []
  , background := [] }

/-- One on/sleep/off/sleep cycle of the flash loop with the interval
`duration / (flashes * 2)`. -/
def flashCycle (duration flashes : Int) : List PinOp :=
  [PinOp.setOn, PinOp.sleep ((duration : ℚ) / ((flashes * 2 : Int) : ℚ)),
   PinOp.setOff, PinOp.sleep ((duration : ℚ) / ((flashes * 2 : Int) : ℚ))]

/-- A response is an HTTP client error when its status code is 4xx. -/
def isClientError (r : HandlerResult) : Prop :=
  400 ≤ r.statusCode ∧ r.statusCode ≤ 499

instance (r : HandlerResult) : Decidable (isClientError r) :=
  inferInstanceAs (Decidable (_ ∧ _))

/- ### Helper lemmas -/

/-- When `flashes ≥ 1` the divisor is non-zero, so every iteration of
the loop succeeds and contributes one full cycle. -/
theorem flashLoop_eq_of_pos (duration flashes : Int)
    (h : 1 ≤ flashes) (n : Nat) :
    flashLoop duration flashes n =
      Except.ok (List.replicate n (flashCycle duration flashes)).flatten := by
  induction n with
  | zero => rfl
  | succ n ih =>
      have hz : flashes * 2 ≠ 0 := by omega
      simp only [flashLoop, ih, pyDiv, if_neg hz, flashCycle,
        List.replicate_succ, List.flatten_cons]
      rfl

/-- The scheduled flash work succeeds for positive `flashes` and its
trace is `flashes.toNat` copies of the cycle. -/
theorem flashTask_eq_of_pos (duration flashes : Int) (h : 1 ≤ flashes) :
    flashTask duration flashes =
      Except.ok (List.replicate flashes.toNat
                  (flashCycle duration flashes)).flatten :=
  flashLoop_eq_of_pos duration flashes h flashes.toNat

/-- Running a trace split as an append runs the pieces in order. -/
theorem run_append (pin : Bool) (l1 l2 : List PinOp) :
    run pin (l1 ++ l2) = run (run pin l1) l2 :=
  List.foldl_append runOp pin l1 l2

/-- A single flash cycle always leaves the pin low. -/
theorem run_flashCycle (duration flashes : Int) (pin : Bool) :
    run pin (flashCycle duration flashes) = false := rfl

/-- Running any positive number of flash cycles leaves the pin low. -/
theorem run_replicate_flashCycle (duration flashes : Int) :
    ∀ n : Nat, 1 ≤ n → ∀ pin : Bool,
      run pin (List.replicate n (flashCycle duration flashes)).flatten
        = false := by
  intro n
  induction n with
  | zero => intro h; exact absurd h (by decide)
  | succ n ih =>
      intro _ pin
      rw [List.replicate_succ, List.flatten_cons, run_append,
        run_flashCycle]
      rcases Nat.eq_zero_or_pos n with h0 | hpos
      · subst h0; rfl
      · exact ih hpos false

/- ### Claims -/

/-- C1: for every flash request with duration `D` and a positive flash
count `F`, the scheduled background work succeeds and consists of
exactly `F` iterations of {set pin high, sleep `D / (F * 2)`, set pin
low, sleep `D / (F * 2)`}, and the handler's response echoes the
scheduled parameters as `{"status": "flashing", "duration": D,
"flashes": F}`. -/
theorem flash_schedules_F_cycles_and_echoes (D F : Int) (h : 1 ≤ F) :
    flashTask D F =
      Except.ok (List.replicate F.toNat (flashCycle D F)).flatten ∧
    (lamp_flash D F).response =
      [("status", JsonPrim.s "flashing"),
       ("duration", JsonPrim.i D),
       ("flashes", JsonPrim.i F)] :=
  ⟨flashTask_eq_of_pos D F h, rfl⟩

/-- Witness for C1 at `D = 4`, `F = 2`: the interval is `1` and the
trace is two explicit cycles. -/
theorem flash_schedules_F_cycles_and_echoes_witness :
    flashTask 4 2 =
      Except.ok (List.replicate (2 : Int).toNat (flashCycle 4 2)).flatten ∧
    (lamp_flash 4 2).response =
      [("status", JsonPrim.s "flashing"),
       ("duration", JsonPrim.i 4),
       ("flashes", JsonPrim.i 2)] :=
  flash_schedules_F_cycles_and_echoes 4 2 (by decide)

/-- C2: every request to `/lamp/on` issues a pin-on write, leaves the
pin high from any prior state, and returns exactly
`{"status": "on"}`. -/
theorem lamp_on_sets_high_and_responds (pin : Bool) :
    run pin lamp_on.trace = true ∧
    PinOp.setOn ∈ lamp_on.trace ∧
    lamp_on.response = [("status", JsonPrim.s "on")] := by
  refine ⟨rfl, ?_, rfl⟩
  simp [lamp_on]

/-- C3: every request to `/lamp/off` issues a pin-off write, leaves the
pin low from any prior state, and returns exactly
`{"status": "off"}`. -/
theorem lamp_off_sets_low_and_responds (pin : Bool) :
    run pin lamp_off.trace = false ∧
    PinOp.setOff ∈ lamp_off.trace ∧
    lamp_off.response = [("status", JsonPrim.s "off")] := by
  refine ⟨rfl, ?_, rfl⟩
  simp [lamp_off]

/-- C4 counterexample: with `flashes = 0` (and `duration = 5`) the
scheduled flash work does not raise a division-by-zero fault — it
succeeds with an empty trace, because the loop body containing the
division never runs. -/
theorem flashTask_zero_flashes_no_fault :
    flashTask 5 0 = Except.ok [] := rfl

/-- C4 amended: for a flash request with `flashes = 0`, the scheduled
flash work performs zero iterations and completes without any fault; in
particular no division is evaluated, since the division sits inside the
loop body and the iteration range is empty. -/
theorem flashTask_zero_flashes_ok (D : Int) :
    flashTask D 0 = Except.ok [] := rfl

/-- C5 counterexample: a request to `/lamp/flash` with `flashes = 0`
returns the ordinary 200 "flashing" response, not a client-error
response. -/
theorem lamp_flash_zero_not_client_error :
    (lamp_flash 5 0).statusCode = 200 ∧
    ¬ isClientError (lamp_flash 5 0) := by
  constructor
  · rfl
  · decide

/-- C5 amended: a request to `/lamp/flash` with `flashes = 0` does not
crash the server process — the scheduled work performs no operation and
completes without fault — but it returns the normal 200 "flashing"
response, not a client error. -/
theorem lamp_flash_zero_no_crash_success (D : Int) :
    flashTask D 0 = Except.ok [] ∧
    (lamp_flash D 0).statusCode = 200 ∧
    ¬ isClientError (lamp_flash D 0) := by
  refine ⟨rfl, rfl, fun h => ?_⟩
  have h1 : (400 : Nat) ≤ 200 := h.1
  omega

/-- C6: for every flash request with non-positive `flashes`, the
scheduled background work performs zero loop iterations — no pin write,
no sleep, and no division occurs (the task completes successfully with
an empty trace), so in particular `flashes = 0` triggers no
division-by-zero fault. -/
theorem flashTask_nonpos_empty (D F : Int) (h : F ≤ 0) :
    flashTask D F = Except.ok [] := by
  unfold flashTask
  rw [Int.toNat_of_nonpos h]
  rfl

/-- Witness for C6 at `D = 5`, `F = 0`. -/
theorem flashTask_nonpos_empty_witness :
    flashTask 5 (0 : Int) = Except.ok [] :=
  flashTask_nonpos_empty 5 0 (by decide)

/-- C7: every request to `/health` returns exactly `{"ok": true}`, and
the handler performs no pin operation, so the pin state is unchanged
from any prior state. -/
theorem health_pure (pin : Bool) :
    health.response = [("ok", JsonPrim.b true)] ∧
    health.trace = [] ∧
    run pin health.trace = pin :=
  ⟨rfl, rfl, rfl⟩

/-- C8: `/lamp/on` is idempotent — from any starting pin state, the pin
state after a second call equals the state after the first (both high),
and both calls return the same body `{"status": "on"}`. -/
theorem lamp_on_idempotent (pin : Bool) :
    run (run pin lamp_on.trace) lamp_on.trace = run pin lamp_on.trace ∧
    run pin lamp_on.trace = true ∧
    lamp_on.response = [("status", JsonPrim.s "on")] :=
  ⟨rfl, rfl, rfl⟩

/-- C9: the `/lamp/flash` request handler itself performs no pin write
and no sleep before returning: its synchronous trace is empty, the pin
state at response time equals the state before the request, and all the
toggling work sits in the single submitted background task. -/
theorem lamp_flash_handler_no_sync_effect (D F : Int) (pin : Bool) :
    (lamp_flash D F).trace = [] ∧
    run pin (lamp_flash D F).trace = pin ∧
    (lamp_flash D F).background = [flashTask D F] :=
  ⟨rfl, rfl, rfl⟩

/-- C10: for every flash request with `flashes ≥ 1`, when the scheduled
background work runs to completion its trace leaves the pin in the low
state, regardless of the duration and of the pin state before the
flash. -/
theorem flash_ends_low (D F : Int) (pin : Bool) (t : List PinOp)
    (hF : 1 ≤ F) (ht : flashTask D F = Except.ok t) :
    run pin t = false := by
  rw [flashTask_eq_of_pos D F hF] at ht
  cases ht
  exact run_replicate_flashCycle D F F.toNat
    (by omega) pin

/-- Witness for C10 at `D = 4`, `F = 2`, starting from a high pin. -/
theorem flash_ends_low_witness :
    run true [PinOp.setOn, PinOp.sleep 1, PinOp.setOff, PinOp.sleep 1,
              PinOp.setOn, PinOp.sleep 1, PinOp.setOff, PinOp.sleep 1]
      = false :=
  flash_ends_low 4 2 true _ (by decide) (by
    rw [flashTask_eq_of_pos 4 2 (by decide)]
    norm_num [flashCycle, List.replicate_succ, List.flatten_cons]
    decide)
